import Mathlib

/-!
Verification of the snowplow-rust-tracker emitter core (src/emitter.rs) and
the envelope/schema model it relies on. Pure Rust functions are embedded as
Lean functions; the HTTP transport is embedded as an explicit oracle mapping
a request to a transport outcome; serde JSON serialization is embedded as a
`Json` tree together with the compact renderer used for stringified nested
documents.
-/

/-- JSON values. Objects are ordered association lists, mirroring serde's
struct serialization which emits fields in declaration order. -/
inductive Json where
  | null : Json
  | bool (b : Bool) : Json
  | num (n : Int) : Json
  | str (s : String) : Json
  | arr (xs : List Json) : Json
  | obj (fields : List (String × Json)) : Json

/-- Hexadecimal digit for a value below 16, as used in JSON control-character
escapes. -/
def hexDigit (n : Nat) : Char :=
  if n < 10 then Char.ofNat (48 + n) else Char.ofNat (87 + n)

/-- Escape of a single character inside a JSON string literal, matching
serde_json's compact escaping. -/
def escapeChar (c : Char) : String :=
  if c = '"' then "\\\""
  else if c = '\\' then "\\\\"
  else if c = '\n' then "\\n"
  else if c = '\r' then "\\r"
  else if c = '\t' then "\\t"
  else if c.toNat < 32 then
    "\\u00" ++ String.singleton (hexDigit (c.toNat / 16))
      ++ String.singleton (hexDigit (c.toNat % 16))
  else String.singleton c

/-- Render a string as a JSON string literal. -/
def renderString (s : String) : String :=
  "\"" ++ String.join (s.toList.map escapeChar) ++ "\""

mutual

/-- Compact JSON rendering, as serde_json's `to_string` produces: no spaces,
fields in order. -/
def Json.render : Json → String
  | .null => "null"
  | .bool b => cond b "true" "false"
  | .num n => toString n
  | .str s => renderString s
  | .arr xs => "[" ++ Json.renderArr xs ++ "]"
  | .obj fs => "\x7b" ++ Json.renderObj fs ++ "\x7d"

/-- Render the comma-separated elements of a JSON array. -/
def Json.renderArr : List Json → String
  | [] => ""
  | [x] => Json.render x
  | x :: xs => Json.render x ++ "," ++ Json.renderArr xs

/-- Render the comma-separated fields of a JSON object. -/
def Json.renderObj : List (String × Json) → String
  | [] => ""
  | [(k, v)] => renderString k ++ ":" ++ Json.render v
  | (k, v) :: fs => renderString k ++ ":" ++ Json.render v ++ "," ++ Json.renderObj fs

end

/-- Field lookup in a serialized JSON object: the first value bound to the
key, if the value is an object at all. -/
def Json.lookup (key : String) : Json → Option Json
  | .obj fs => fs.lookup key
  | _ => none

/-- Keys of a JSON object in serialization order (empty for non-objects). -/
def Json.keys : Json → List String
  | .obj fs => fs.map Prod.fst
  | _ => []

/-- Modelled from the spec: `SchemaVersion` from the missing payload.rs —
a three-part version (major, minor, patch), non-negative integers with no
upper bound (§3, §4.1). -/
structure SchemaVersion where
  major : Nat
  minor : Nat
  patch : Nat
deriving Repr, DecidableEq

/-- Modelled from the spec: `SchemaVersion::new` (§4.1 construction from the
three components). -/
def SchemaVersion.new (major minor patch : Nat) : SchemaVersion :=
  ⟨major, minor, patch⟩

/-- Modelled from the spec: `Schema` from the missing payload.rs — vendor
name, schema name and a three-part version; immutable, equal iff all
components match (§3). -/
structure Schema where
  vendor : String
  name : String
  version : SchemaVersion
deriving Repr, DecidableEq

/-- Modelled from the spec: `Schema::new` — construct from (vendor, name,
version); no validation is performed on the strings (§4.1). -/
def Schema.new (vendor name : String) (version : SchemaVersion) : Schema :=
  ⟨vendor, name, version⟩

/-- Modelled from the spec: `Schema::new_snowplow` as used in
src/emitter.rs — a schema under the `com.snowplowanalytics.snowplow`
vendor. -/
def Schema.new_snowplow (name : String) (version : SchemaVersion) : Schema :=
  Schema.new "com.snowplowanalytics.snowplow" name version

/-- Modelled from the spec: rendering a schema identity to its canonical URI
string, deterministic and pure in the four components (§3, §4.1):
the form iglu:vendor/name/jsonschema/major-minor-patch. -/
def Schema.toUri (s : Schema) : String :=
  "iglu:" ++ s.vendor ++ "/" ++ s.name ++ "/jsonschema/"
    ++ toString s.version.major ++ "-" ++ toString s.version.minor
    ++ "-" ++ toString s.version.patch

/-- Modelled from the spec: the `HasSchema` trait from the missing
payload.rs — the capability of a taggable payload type to report its own
schema identity, a pure query (§3, §4.1). -/
class HasSchema (T : Type) where
  schema : T → Schema

/-- Serde's `Serialize` capability, embedded as producing a `Json` tree. -/
class Serialize (T : Type) where
  toJson : T → Json

instance : Serialize String where
  toJson s := Json.str s

instance {T : Type} [Serialize T] : Serialize (List T) where
  toJson xs := Json.arr (xs.map Serialize.toJson)

/-- Modelled from the spec: `Envelope<T>` from the missing payload.rs — the
one-field wrapper pairing a value with its schema identity at serialization
time (§3). The Rust type is the tuple struct `Envelope(T)`. -/
structure Envelope (T : Type) where
  val : T
deriving Repr, DecidableEq

/-- Modelled from the spec: serde serialization of `Envelope<T>` — an object
with exactly the two keys `schema` then `data`, in this order, `schema` being
the canonical URI of the contained value's reported identity (§3, §4.2, and
the serde token test in src/emitter.rs). -/
instance {T : Type} [HasSchema T] [Serialize T] : Serialize (Envelope T) where
  toJson e := Json.obj
    [("schema", Json.str (HasSchema.schema e.val).toUri),
     ("data", Serialize.toJson e.val)]

/-- Modelled from the spec: the envelope of an `unstruct_event` payload
reports the fixed `unstruct_event` 1-0-0 identity, as witnessed by the serde
token test in src/emitter.rs (outer `PayloadWrapper` schema). -/
instance {T : Type} : HasSchema (Envelope T) where
  schema _ := Schema.new_snowplow "unstruct_event" (SchemaVersion.new 1 0 0)

/-- Modelled from the spec: `PayloadWrapper<T>` from the missing payload.rs —
the nested self-describing document for a payload: an envelope whose data is
the payload's own envelope (test_envelope_serialization in src/emitter.rs). -/
abbrev PayloadWrapper (T : Type) := Envelope (Envelope T)

/-- Modelled from the spec: `PayloadWrapper::new`. -/
def PayloadWrapper.new {T : Type} (x : T) : PayloadWrapper T :=
  Envelope.mk (Envelope.mk x)

/-- Modelled from the spec: `JsonString<T>` from the missing util.rs — a
wrapper serializing its content as a JSON document embedded in a JSON string
value (§6, the `ue_pr` stringification). -/
structure JsonString (T : Type) where
  val : T

instance {T : Type} [Serialize T] : Serialize (JsonString T) where
  toJson j := Json.str (Json.render (Serialize.toJson j.val))

/-- Modelled from the spec: the event type discriminant (§3, §6 — the wire
code for a self-describing event is the unit variant `ue`). -/
inductive EventType where
  | SelfDescribingEvent : EventType
deriving Repr, DecidableEq

instance : Serialize EventType where
  toJson
    | .SelfDescribingEvent => Json.str "ue"

/-- Modelled from the spec: the platform discriminant (§6 — the wire code
for desktop is the unit variant `pc`, from the serde token test in
src/emitter.rs). -/
inductive Platform where
  | Desktop : Platform
deriving Repr, DecidableEq

instance : Serialize Platform where
  toJson
    | .Desktop => Json.str "pc"

/-- Modelled from the spec: `SnowplowTimestamp` from the missing payload.rs —
a creation/send timestamp serialized as epoch milliseconds rendered as a
string (§6). -/
structure SnowplowTimestamp where
  millis : Nat
deriving Repr, DecidableEq

instance : Serialize SnowplowTimestamp where
  toJson t := Json.str (toString t.millis)

/-- Modelled from the spec: `SnowplowEvent` from the missing payload.rs —
the flat wire event record with its fixed field set (§3, §6, and the
construction in test_emitter_event_construction of src/emitter.rs). The
Rust field `namespace` is a Lean keyword and is embedded as `name_space`. -/
structure SnowplowEvent (Payload : Type) where
  event_type : EventType
  payload : JsonString (PayloadWrapper Payload)
  platform : Platform
  app_id : String
  tracker_id : String
  name_space : String
  event_id : Option String
  created_timestamp : SnowplowTimestamp
  sent_timestamp : SnowplowTimestamp

/-- Modelled from the spec: serde serialization of `SnowplowEvent` — exactly
the nine wire keys, in order, with the fixed abbreviations of §6. -/
instance {Payload : Type} [HasSchema Payload] [Serialize Payload] :
    Serialize (SnowplowEvent Payload) where
  toJson e := Json.obj
    [("e", Serialize.toJson e.event_type),
     ("ue_pr", Serialize.toJson e.payload),
     ("p", Serialize.toJson e.platform),
     ("aid", Json.str e.app_id),
     ("tv", Json.str e.tracker_id),
     ("tna", Json.str e.name_space),
     ("eid", match e.event_id with
       | some u => Json.str u
       | none => Json.null),
     ("dtm", Serialize.toJson e.created_timestamp),
     ("stm", Serialize.toJson e.sent_timestamp)]

/-- From src/emitter.rs line 43: `impl HasSchema for Vec<SnowplowEvent>` —
the batch of events reports the fixed built-in `payload_data` 1-0-4
identity, independent of the events. -/
instance {Payload : Type} : HasSchema (List (SnowplowEvent Payload)) where
  schema _ := Schema.new_snowplow "payload_data" (SchemaVersion.new 1 0 4)

/-- From src/emitter.rs line 33: the outermost type actually sent to
snowplow — an envelope around the vector of events (a transparent `type`
alias in the Rust source). -/
abbrev EventContainer (Payload : Type) := Envelope (List (SnowplowEvent Payload))

/-- From src/emitter.rs lines 35-41: `EventContainer::new` collects the given
events into a `Vec` (eager, order-preserving, total). -/
def EventContainer.new {Payload : Type} (events : List (SnowplowEvent Payload)) :
    EventContainer Payload :=
  Envelope.mk events

/-- Modelled from the spec: the url crate's `Url` type — a destination URL
that has been parsed and validated as well-formed (§4.4). Only values
produced by `Url.parse` are well-formed URLs. -/
structure Url where
  raw : String
deriving Repr, DecidableEq

/-- Split a character sequence at the first `://` separator, returning the
scheme characters and the remainder. -/
def splitScheme : List Char → Option (List Char × List Char)
  | [] => none
  | ':' :: '/' :: '/' :: rest => some ([], rest)
  | c :: rest => (splitScheme rest).map (fun p => (c :: p.1, p.2))

/-- Modelled from the spec: URL parsing and validation — a well-formed URL
has a nonempty scheme, the `://` separator and a nonempty remainder; any
other string fails to parse (§4.4, §7(a)). -/
def Url.parse (s : String) : Option Url :=
  match splitScheme s.toList with
  | some (scheme, rest) =>
    if scheme.isEmpty || rest.isEmpty then none else some (Url.mk s)
  | none => none

/-- Modelled from the spec: the opaque reqwest `Client` transport handle
(§4.4); this core never inspects it, so it is embedded as an opaque token. -/
structure Client where
  handle : Nat
deriving Repr, DecidableEq

/-- From src/emitter.rs lines 52-55: the `Emitter` struct — a destination
collector URL and an HTTP client handle. -/
structure Emitter where
  collector_url : Url
  client : Client
deriving Repr, DecidableEq

/-- From src/emitter.rs lines 60-66: `Emitter::new` — a `const fn` that
stores the two fields and cannot fail. -/
def Emitter.new (collector_url : Url) (client : Client) : Emitter :=
  { collector_url := collector_url, client := client }

/-- Modelled from the spec: emitter creation from a destination URL string —
the URL is parsed and validated at construction and a parse failure is fatal
to emitter creation (§4.4, §7(a)); the string-parsing step lives in the
tracker collaborator, absent from src/. -/
def Emitter.fromString (s : String) (client : Client) : Option Emitter :=
  (Url.parse s).map (fun u => Emitter.new u client)

/-- Transport-level error, mirroring the opaque `reqwest::Error`: this core
never constructs one, it only propagates values produced by the transport. -/
structure ReqwestError where
  msg : String
deriving Repr, DecidableEq

/-- HTTP response as the emitter sees it: a status code (never inspected by
the emitter) and the body as a stream of chunk outcomes. -/
structure Response where
  status : Nat
  chunks : List (Except ReqwestError String)

/-- Outbound HTTP POST request as built by `track_events`: destination URL,
content type and serialized JSON body. -/
structure Request where
  url : Url
  contentType : String
  body : String
deriving Repr, DecidableEq

/-- Transport oracle: the behavior of `client.post(..).json(..).send()` — a
function from the issued request to either a transport error or a response. -/
def Net : Type := Request → Except ReqwestError Response

/-- From src/emitter.rs lines 84-87: draining the response body with
`bytes_stream().try_for_each(|_chunk| ready(Ok(())))` — chunk contents are
discarded, the first stream-level error is returned. -/
def drainBody : List (Except ReqwestError String) → Except ReqwestError Unit
  | [] => Except.ok ()
  | Except.ok _ :: rest => drainBody rest
  | Except.error e :: _ => Except.error e

/-- The single POST request `track_events` builds for a batch: the clone of
the construction-time collector URL, JSON content type, and the serialized
event container as body (src/emitter.rs lines 75-80). -/
def postRequest {Payload : Type} [HasSchema Payload] [Serialize Payload]
    (em : Emitter) (events : List (SnowplowEvent Payload)) : Request :=
  { url := em.collector_url,
    contentType := "application/json",
    body := Json.render (Serialize.toJson (EventContainer.new events)) }

/-- From src/emitter.rs lines 69-88: `Emitter::track_events` — build the
container, issue one POST, propagate a send error, otherwise drain the
response body and propagate its first stream error. The second component is
the list of outbound requests the call issued. -/
def Emitter.track_events {Payload : Type} [HasSchema Payload] [Serialize Payload]
    (em : Emitter) (net : Net) (events : List (SnowplowEvent Payload)) :
    Except ReqwestError Unit × List Request :=
  match net (postRequest em events) with
  | Except.error e => (Except.error e, [postRequest em events])
  | Except.ok response => (drainBody response.chunks, [postRequest em events])

/-- From src/emitter.rs lines 91-96: `Emitter::track_event` — forwards the
one-element sequence `[event]` to `track_events`. -/
def Emitter.track_event {Payload : Type} [HasSchema Payload] [Serialize Payload]
    (em : Emitter) (net : Net) (event : SnowplowEvent Payload) :
    Except ReqwestError Unit × List Request :=
  em.track_events net [event]

/-- State-passing embedding of the `&self` method `track_events`: the
emitter after the call is the struct whose fields are the values the method
read (the method body contains no assignment to either field). -/
def Emitter.track_events_st {Payload : Type} [HasSchema Payload] [Serialize Payload]
    (em : Emitter) (net : Net) (events : List (SnowplowEvent Payload)) :
    (Except ReqwestError Unit × List Request) × Emitter :=
  (em.track_events net events,
   { collector_url := em.collector_url, client := em.client })

/-- Repeated calls to `track_events` on one emitter, threading the emitter
state through each call; returns the per-call results, all requests issued
across the calls, and the final emitter state. -/
def runCalls {Payload : Type} [HasSchema Payload] [Serialize Payload]
    (em : Emitter) (net : Net) :
    List (List (SnowplowEvent Payload)) →
      List (Except ReqwestError Unit) × List Request × Emitter
  | [] => ([], [], em)
  | batch :: rest =>
    let step := em.track_events_st net batch
    let tail := runCalls step.2 net rest
    (step.1.1 :: tail.1, step.1.2 ++ tail.2.1, tail.2.2)

/-- First transport error of a send outcome: the send error itself, or the
first error in the response body stream. -/
def firstTransportError : Except ReqwestError Response → Option ReqwestError
  | Except.error e => some e
  | Except.ok response =>
    response.chunks.findSome? (fun c =>
      match c with
      | Except.error e => some e
      | Except.ok _ => none)

/-- From the test module of src/emitter.rs: the `WebPage` example payload. -/
structure WebPage where
  name : String
  id : String
deriving Repr, DecidableEq

/-- From the test module of src/emitter.rs: `WebPage` reports the
`screen_view` 1-0-0 identity. -/
instance : HasSchema WebPage where
  schema _ :=
    Schema.new "com.snowplowanalytics.snowplow" "screen_view" (SchemaVersion.new 1 0 0)

instance : Serialize WebPage where
  toJson w := Json.obj [("name", Json.str w.name), ("id", Json.str w.id)]

/-- The concrete event built in test_emitter_event_construction of
src/emitter.rs, with a fixed timestamp. -/
def testEvent : SnowplowEvent WebPage :=
  { event_type := EventType.SelfDescribingEvent,
    payload := JsonString.mk (PayloadWrapper.new (WebPage.mk "test" "test id")),
    platform := Platform.Desktop,
    app_id := "test id",
    tracker_id := "test tracker ID",
    name_space := "test namespace",
    event_id := some "a1a2a3a4-b1b2-c1c2-d1d2-d3d4d5d6d7d8",
    created_timestamp := SnowplowTimestamp.mk 1640995200000,
    sent_timestamp := SnowplowTimestamp.mk 1640995200000 }

/-- Concrete collector URL for witnesses. -/
def testUrl : Url := Url.mk "https://collector.example.com"

/-- Concrete emitter for witnesses. -/
def testEmitter : Emitter := Emitter.new testUrl (Client.mk 0)

/-- Transport oracle that accepts the POST and streams one clean chunk. -/
def netOk : Net := fun _ => Except.ok (Response.mk 200 [Except.ok "ok"])

/-- Transport oracle that answers HTTP 500 with a cleanly draining body. -/
def net500 : Net := fun _ => Except.ok (Response.mk 500 [Except.ok "err"])

/-- Transport oracle whose send fails (connection refused). -/
def netRefused : Net := fun _ => Except.error (ReqwestError.mk "connection refused")

/-- Unfolding lemma: serialization of an envelope emits the two-key object,
schema first. -/
theorem toJson_envelope {T : Type} [HasSchema T] [Serialize T] (e : Envelope T) :
    Serialize.toJson e =
      Json.obj [("schema", Json.str (HasSchema.schema e.val).toUri),
        ("data", Serialize.toJson e.val)] :=
  rfl

/-- Unfolding lemma: a list of events reports the fixed `payload_data` 1-0-4
identity (src/emitter.rs lines 43-47). -/
theorem schema_of_event_list {Payload : Type}
    (events : List (SnowplowEvent Payload)) :
    HasSchema.schema events =
      Schema.new_snowplow "payload_data" (SchemaVersion.new 1 0 4) :=
  rfl

/-- Unfolding lemma: the canonical URI of the fixed batch identity. -/
theorem payload_data_uri :
    (Schema.new_snowplow "payload_data" (SchemaVersion.new 1 0 4)).toUri =
      "iglu:com.snowplowanalytics.snowplow/payload_data/jsonschema/1-0-4" := by
  rfl

/-- C1: for every payload type and every batch of event records, including
the empty batch, the serialized event-batch container's `schema` field is
exactly the built-in constant
`iglu:com.snowplowanalytics.snowplow/payload_data/jsonschema/1-0-4`, never
configurable per call and never derived from the events. -/
theorem batch_schema_is_fixed_constant {Payload : Type}
    [HasSchema Payload] [Serialize Payload]
    (events : List (SnowplowEvent Payload)) :
    Json.lookup "schema" (Serialize.toJson (EventContainer.new events)) =
      some (Json.str
        "iglu:com.snowplowanalytics.snowplow/payload_data/jsonschema/1-0-4") := by
  rw [toJson_envelope, schema_of_event_list, payload_data_uri]
  rfl

/-- C2: building the batch container from any finite sequence of N event
records drains the sequence eagerly into the `data` array in input order for
every N, the empty sequence yields an empty `data` array, and building is a
total function (it never fails). -/
theorem container_new_preserves_order {Payload : Type}
    [HasSchema Payload] [Serialize Payload]
    (events : List (SnowplowEvent Payload)) :
    (EventContainer.new events).val = events ∧
    Json.lookup "data" (Serialize.toJson (EventContainer.new events)) =
      some (Json.arr (events.map Serialize.toJson)) ∧
    Json.lookup "data"
        (Serialize.toJson (EventContainer.new ([] : List (SnowplowEvent Payload)))) =
      some (Json.arr []) :=
  ⟨rfl, rfl, rfl⟩

/-- C3: `track_event e` is definitionally the call `track_events [e]`: it
forwards the one-element sequence, so the result, the issued request and its
wire body all coincide. -/
theorem track_event_eq_track_events_singleton {Payload : Type}
    [HasSchema Payload] [Serialize Payload]
    (em : Emitter) (net : Net) (event : SnowplowEvent Payload) :
    em.track_event net event = em.track_events net [event] :=
  rfl

/-- Helper: drainBody succeeds exactly when every chunk of the stream is
clean. -/
theorem drainBody_ok_iff (chunks : List (Except ReqwestError String)) :
    drainBody chunks = Except.ok () ↔
      ∀ c ∈ chunks, ∃ chunk, c = Except.ok chunk := by
  induction chunks with
  | nil => simp [drainBody]
  | cons head tail ih =>
    cases head with
    | ok chunk => simp [drainBody, ih]
    | error e => simp [drainBody]

/-- Helper: drainBody either succeeds or returns the first stream error. -/
theorem drainBody_cases (chunks : List (Except ReqwestError String)) :
    drainBody chunks = Except.ok () ∨
      ∃ e, drainBody chunks = Except.error e ∧
        chunks.findSome? (fun c =>
          match c with
          | Except.error e' => some e'
          | Except.ok _ => none) = some e := by
  induction chunks with
  | nil => exact Or.inl rfl
  | cons head tail ih =>
    cases head with
    | ok chunk =>
      rcases ih with h | ⟨e, he, hf⟩
      · exact Or.inl (by simpa [drainBody] using h)
      · exact Or.inr ⟨e, by simpa [drainBody] using he, by simpa [List.findSome?] using hf⟩
    | error e => exact Or.inr ⟨e, rfl, by simp [List.findSome?]⟩

/-- C4: `track_events` succeeds iff the POST completes and the response body
stream drains without a transport error; the response's status code is never
inspected, so two responses with the same body stream (for example a 200 and
a 500) yield the same outcome. -/
theorem track_events_success_iff {Payload : Type}
    [HasSchema Payload] [Serialize Payload]
    (em : Emitter) (net : Net) (events : List (SnowplowEvent Payload)) :
    ((em.track_events net events).1 = Except.ok () ↔
      ∃ response, net (postRequest em events) = Except.ok response ∧
        ∀ c ∈ response.chunks, ∃ chunk, c = Except.ok chunk) ∧
    (∀ (net' : Net) (r r' : Response),
      net (postRequest em events) = Except.ok r →
      net' (postRequest em events) = Except.ok r' →
      r.chunks = r'.chunks →
      (em.track_events net events).1 = (em.track_events net' events).1) := by
  constructor
  · unfold Emitter.track_events
    cases hnet : net (postRequest em events) with
    | error e => simp [hnet]
    | ok response =>
      simp only [hnet]
      constructor
      · intro h
        exact ⟨response, rfl, (drainBody_ok_iff response.chunks).1 h⟩
      · rintro ⟨response2, hr, hclean⟩
        cases hr
        exact (drainBody_ok_iff response.chunks).2 hclean
  · intro net' r r' hr hr' hchunks
    unfold Emitter.track_events
    simp [hr, hr', hchunks]

/-- C4 witness: a 500 response whose body drains cleanly still yields
success. -/
theorem track_events_success_iff_witness :
    (testEmitter.track_events net500 [testEvent]).1 = Except.ok () :=
  (track_events_success_iff testEmitter net500 [testEvent]).1.mpr
    ⟨Response.mk 500 [Except.ok "err"], rfl,
      fun c hc => ⟨"err", by rwa [List.mem_singleton] at hc⟩⟩

/-- C5: for every taggable payload value, the envelope serializes as an
object with exactly the two keys `schema` then `data`, in this order, the
value of `schema` being exactly the canonical URI
iglu:vendor/name/jsonschema/major-minor-patch rendered from the payload's
reported schema identity. -/
theorem envelope_serializes_schema_first {T : Type} [HasSchema T] [Serialize T]
    (x : T) :
    Serialize.toJson (Envelope.mk x) =
      Json.obj
        [("schema", Json.str
          ("iglu:" ++ (HasSchema.schema x).vendor ++ "/"
            ++ (HasSchema.schema x).name ++ "/jsonschema/"
            ++ toString (HasSchema.schema x).version.major ++ "-"
            ++ toString (HasSchema.schema x).version.minor ++ "-"
            ++ toString (HasSchema.schema x).version.patch)),
         ("data", Serialize.toJson x)] ∧
    Json.keys (Serialize.toJson (Envelope.mk x)) = ["schema", "data"] :=
  ⟨rfl, rfl⟩

/-- C6: an envelope whose payload is itself an envelope serializes nested,
not flattened — the outer `schema` is the outer identity and the outer
`data` is the full inner `schema`+`data` object — and in the wire event
record the `ue_pr` field is a JSON string value holding the rendered nested
document, not a nested JSON object. -/
theorem nested_envelope_not_flattened {T : Type} [HasSchema T] [Serialize T]
    (inner : Envelope T) (ev : SnowplowEvent T) :
    Serialize.toJson (Envelope.mk inner) =
      Json.obj
        [("schema", Json.str (HasSchema.schema inner).toUri),
         ("data", Json.obj
           [("schema", Json.str (HasSchema.schema inner.val).toUri),
            ("data", Serialize.toJson inner.val)])] ∧
    Json.lookup "ue_pr" (Serialize.toJson ev) =
      some (Json.str (Json.render (Serialize.toJson ev.payload.val))) := by
  exact ⟨rfl, rfl⟩

/-- Helper: a `track_events` call issues exactly the single POST request,
whatever the transport does. -/
theorem track_events_requests {Payload : Type}
    [HasSchema Payload] [Serialize Payload]
    (em : Emitter) (net : Net) (events : List (SnowplowEvent Payload)) :
    (em.track_events net events).2 = [postRequest em events] := by
  unfold Emitter.track_events
  cases net (postRequest em events) <;> rfl

/-- C7: every call to `track_events` issues exactly one outbound POST whose
body is the serialization of the whole batch; a transport failure on send
returns that failure as a result value with no further request, no retry and
no buffering. -/
theorem track_events_single_post {Payload : Type}
    [HasSchema Payload] [Serialize Payload]
    (em : Emitter) (net : Net) (events : List (SnowplowEvent Payload)) :
    (em.track_events net events).2 = [postRequest em events] ∧
    (postRequest em events).body =
      Json.render (Serialize.toJson (EventContainer.new events)) ∧
    (∀ e, net (postRequest em events) = Except.error e →
      em.track_events net events = (Except.error e, [postRequest em events])) := by
  refine ⟨track_events_requests em net events, rfl, ?_⟩
  intro e he
  unfold Emitter.track_events
  simp [he]

/-- C7 witness: with a refused connection the call fails with exactly the
transport's error and a single request was attempted. -/
theorem track_events_single_post_witness :
    testEmitter.track_events netRefused [testEvent] =
      (Except.error (ReqwestError.mk "connection refused"),
        [postRequest testEmitter [testEvent]]) :=
  (track_events_single_post testEmitter netRefused [testEvent]).2.2
    (ReqwestError.mk "connection refused") rfl

/-- C8: emitter construction takes the destination URL parsed and validated
as well-formed, connects to nothing, and can fail for no reason other than a
URL parse failure: it succeeds exactly when the URL parses, in which case
the emitter holds exactly the parsed URL and the given client. -/
theorem emitter_construction_parse_only (s : String) (c : Client) :
    ((Emitter.fromString s c).isSome ↔ (Url.parse s).isSome) ∧
    (∀ u, Url.parse s = some u →
      Emitter.fromString s c = some (Emitter.new u c)) ∧
    (∀ u : Url, Emitter.new u c = { collector_url := u, client := c }) := by
  refine ⟨?_, ?_, fun u => rfl⟩
  · simp [Emitter.fromString]
  · intro u hu
    simp [Emitter.fromString, hu]

/-- C8 witness: a well-formed URL yields the emitter holding it; a malformed
URL is fatal to creation. -/
theorem emitter_construction_parse_only_witness :
    Emitter.fromString "https://collector.example.com" (Client.mk 0) =
      some (Emitter.new testUrl (Client.mk 0)) ∧
    Emitter.fromString "not a url" (Client.mk 0) = none :=
  ⟨(emitter_construction_parse_only "https://collector.example.com"
      (Client.mk 0)).2.1 testUrl (by decide),
   by decide⟩

/-- Helper: the state-passing embedding of the borrowed-receiver call hands
back the emitter with both fields exactly as read. -/
theorem track_events_st_frame {Payload : Type}
    [HasSchema Payload] [Serialize Payload]
    (em : Emitter) (net : Net) (events : List (SnowplowEvent Payload)) :
    (em.track_events_st net events).2 = em :=
  rfl

/-- Helper: any sequence of calls leaves the emitter unchanged and every
request issued targets the emitter's own collector URL. -/
theorem runCalls_frame {Payload : Type}
    [HasSchema Payload] [Serialize Payload]
    (net : Net) (batches : List (List (SnowplowEvent Payload))) :
    ∀ em : Emitter, (runCalls em net batches).2.2 = em ∧
      ∀ req ∈ (runCalls em net batches).2.1, req.url = em.collector_url := by
  induction batches with
  | nil =>
    intro em
    exact ⟨rfl, by simp [runCalls]⟩
  | cons batch rest ih =>
    intro em
    refine ⟨(ih em).1, ?_⟩
    intro req hreq
    rw [show (runCalls em net (batch :: rest)).2.1 =
        (em.track_events net batch).2 ++ (runCalls em net rest).2.1 from rfl,
      track_events_requests] at hreq
    rcases List.mem_append.1 hreq with h | h
    · rw [List.mem_singleton] at h
      subst h
      rfl
    · exact (ih em).2 req h

/-- C9: the emitter's two fields, collector URL and client handle, are
immutable after construction: any sequence of `track_events` calls,
succeeding or failing, leaves the emitter exactly as `Emitter::new` set it,
and every request issued by any of the calls targets the construction-time
URL. -/
theorem emitter_fields_immutable {Payload : Type}
    [HasSchema Payload] [Serialize Payload]
    (u : Url) (c : Client) (net : Net)
    (batches : List (List (SnowplowEvent Payload))) :
    ((runCalls (Emitter.new u c) net batches).2.2 = Emitter.new u c) ∧
    (∀ req ∈ (runCalls (Emitter.new u c) net batches).2.1, req.url = u) ∧
    (∀ (em : Emitter) (events : List (SnowplowEvent Payload)),
      (em.track_events_st net events).2 = em) :=
  ⟨(runCalls_frame net batches (Emitter.new u c)).1,
   fun req h => (runCalls_frame net batches (Emitter.new u c)).2 req h,
   fun _ _ => rfl⟩

/-- C9 witness: one concrete call round leaves the test emitter intact and
its one request targets the construction-time URL. -/
theorem emitter_fields_immutable_witness :
    (runCalls (Emitter.new testUrl (Client.mk 0)) netOk [[testEvent]]).2.2 =
      Emitter.new testUrl (Client.mk 0) ∧
    (postRequest (Emitter.new testUrl (Client.mk 0)) [testEvent]).url = testUrl :=
  ⟨(emitter_fields_immutable testUrl (Client.mk 0) netOk [[testEvent]]).1,
   (emitter_fields_immutable testUrl (Client.mk 0) netOk [[testEvent]]).2.1
     (postRequest (Emitter.new testUrl (Client.mk 0)) [testEvent])
     (List.mem_append_left _ (List.mem_singleton_self _))⟩

/-- C10: every call returns either the bare unit success (exposing nothing
of the collector's response) or exactly the first transport error — from the
send or from the body stream — unchanged; `track_event` returns the
identical result for its single event. -/
theorem track_events_error_is_first_transport_error {Payload : Type}
    [HasSchema Payload] [Serialize Payload]
    (em : Emitter) (net : Net) (events : List (SnowplowEvent Payload))
    (event1 : SnowplowEvent Payload) :
    ((em.track_events net events).1 = Except.ok () ∨
      ∃ e, (em.track_events net events).1 = Except.error e ∧
        firstTransportError (net (postRequest em events)) = some e) ∧
    (em.track_event net event1).1 = (em.track_events net [event1]).1 := by
  refine ⟨?_, rfl⟩
  unfold Emitter.track_events
  cases hnet : net (postRequest em events) with
  | error e => exact Or.inr ⟨e, by simp, by simp [firstTransportError]⟩
  | ok response =>
    rcases drainBody_cases response.chunks with h | ⟨e, he, hf⟩
    · exact Or.inl (by simp [h])
    · exact Or.inr ⟨e, by simp [he], by simp [firstTransportError, hf]⟩
